import Mathlib

/-!
Verification of the authentication / session-management core described in the
repository notes (`07-auth-system`, `07b-auth-docker-compose`, middleware and
security notes).  The JavaScript snippets are shallowly embedded: the
PostgreSQL tables become lists of rows, `NOW()` becomes an explicit `now : Nat`
(milliseconds since epoch), each `async` function becomes a pure function on
the database state, and the bcrypt library is modelled by an abstract digest
function `H : salt → plaintext → digest`.
-/

namespace NotesAuth

/-- Model of a bcrypt hash record: the output string of `bcrypt.hash` encodes
the cost factor, the salt, and the digest of (salt, plaintext) under the
underlying one-way function, here abstracted as `H`. -/
structure HashRecord where
  cost : Nat
  salt : String
  digest : String
deriving Repr, DecidableEq

/-- Source `bcrypt.hash(password, saltRounds)` with the freshly drawn random salt made
an explicit argument: the salt is embedded in the output record. -/
def bcryptHash (H : String → String → String) (saltRounds : Nat) (salt : String)
    (password : String) : HashRecord :=
  { cost := saltRounds, salt := salt, digest := H salt password }

/-- Source `bcrypt.compare(password, hashRecord)`: re-digest the candidate password
with the salt embedded in the record and compare digests. -/
def bcryptCompare (H : String → String → String) (password : String)
    (record : HashRecord) : Bool :=
  H record.salt password == record.digest

/-- Source `hashPassword` from the password-hashing notes: `bcrypt.hash` with
`saltRounds = 12`. -/
def hashPassword (H : String → String → String) (salt : String)
    (password : String) : HashRecord :=
  bcryptHash H 12 salt password

/-- Source `verifyPassword(password, hashedPassword)` = `bcrypt.compare(...)`. -/
def verifyPassword (H : String → String → String) (password : String)
    (hashedPassword : HashRecord) : Bool :=
  bcryptCompare H password hashedPassword

/-- A row of the `users` table (the columns the auth flows read/write). -/
structure UserRow where
  id : Nat
  username : String
  email : String
  password_hash : HashRecord
  is_active : Bool
  last_login : Option Nat
deriving Repr, DecidableEq

/-- A row of the `roles` table. -/
structure RoleRow where
  id : Nat
  name : String
deriving Repr, DecidableEq

/-- A row of the `user_roles` join table. -/
structure UserRoleRow where
  user_id : Nat
  role_id : Nat
deriving Repr, DecidableEq

/-- A row of the `sessions` table. -/
structure SessionRow where
  user_id : Nat
  token : String
  ip_address : String
  user_agent : String
  expires_at : Nat
  is_valid : Bool
deriving Repr, DecidableEq

/-- A row of the `auth_logs` audit table. -/
structure AuthLogRow where
  user_id : Option Nat
  event_type : String
  ip_address : String
  user_agent : String
deriving Repr, DecidableEq

/-- The database state shared by all the snippets. -/
structure DB where
  users : List UserRow
  roles : List RoleRow
  user_roles : List UserRoleRow
  sessions : List SessionRow
  auth_logs : List AuthLogRow
deriving Repr, DecidableEq

/-- Source `SELECT ... FROM users WHERE email = $1` (first row). -/
def findUserByEmail (db : DB) (email : String) : Option UserRow :=
  db.users.find? (fun u => u.email == email)

/-- Source `SELECT ... FROM users WHERE id = $1` (first row). -/
def findUserById (db : DB) (userId : Nat) : Option UserRow :=
  db.users.find? (fun u => u.id == userId)

/-- The role names aggregated for a user by the `LEFT JOIN user_roles / roles`
query in `getUserWithRoles` (`json_agg(r.name)` over the user's role rows). -/
def rolesOfUser (db : DB) (userId : Nat) : List String :=
  (db.user_roles.filter (fun ur => ur.user_id == userId)).filterMap
    (fun ur => (db.roles.find? (fun r => r.id == ur.role_id)).map (fun r => r.name))

/-- The record returned by `getUserWithRoles`. -/
structure UserWithRoles where
  id : Nat
  username : String
  email : String
  is_active : Bool
  roles : List String
deriving Repr, DecidableEq

/-- Source `getUserWithRoles(userId)`. -/
def getUserWithRoles (db : DB) (userId : Nat) : Option UserWithRoles :=
  (findUserById db userId).map (fun u =>
    { id := u.id, username := u.username, email := u.email,
      is_active := u.is_active, roles := rolesOfUser db userId })

/-- Source `UPDATE users SET is_active = flag WHERE id = $1`; `deactivateUser` is the
`flag = false` instance that appears in the notes. -/
def setUserActive (db : DB) (userId : Nat) (flag : Bool) : DB :=
  { db with users := db.users.map (fun u =>
      if u.id == userId then { u with is_active := flag } else u) }

/-- Source `deactivateUser(userId)`. -/
def deactivateUser (db : DB) (userId : Nat) : DB :=
  setUserActive db userId false

/-- The value returned by `createSession`. -/
structure NewSession where
  token : String
  expiresAt : Nat
deriving Repr, DecidableEq

/-- Session TTL hard-coded in `createSession`: `Date.now() + 86400000` (24h). -/
def sessionTTL : Nat := 86400000

/-- Source `createSession(userId, ipAddress, userAgent)`; the `uuidv4()` draw is made
an explicit argument `sessionToken`, and `Date.now()` an explicit `now`.
Inserts the new row and returns `{token, expiresAt}`. -/
def createSession (db : DB) (userId : Nat) (ipAddress userAgent : String)
    (sessionToken : String) (now : Nat) : NewSession × DB :=
  let expiresAt := now + sessionTTL
  (⟨sessionToken, expiresAt⟩,
   { db with sessions := db.sessions ++
      [{ user_id := userId, token := sessionToken, ip_address := ipAddress,
         user_agent := userAgent, expires_at := expiresAt, is_valid := true }] })

/-- The WHERE clause of `validateSession`:
`s.token = $1 AND s.is_valid = true AND s.expires_at > NOW()`. -/
def sessionLive (token : String) (now : Nat) (s : SessionRow) : Bool :=
  s.token == token && s.is_valid && decide (now < s.expires_at)

/-- The `SELECT ... FROM sessions s JOIN users u ON s.user_id = u.id WHERE ...`
query of `validateSession`, returning its first result row (`rows[0]`). -/
def sessionQuery (db : DB) (token : String) (now : Nat) :
    Option (SessionRow × UserRow) :=
  (db.sessions.filter (sessionLive token now)).findSome?
    (fun s => (db.users.find? (fun u => u.id == s.user_id)).map (fun u => (s, u)))

/-- Source `UPDATE sessions SET is_valid = false WHERE token = $1`
(`invalidateSession`, the logout primitive). -/
def invalidateSession (db : DB) (token : String) : DB :=
  { db with sessions := db.sessions.map (fun s =>
      if s.token == token then { s with is_valid := false } else s) }

/-- The object `validateSession` returns on success. -/
structure SessionInfo where
  userId : Nat
  username : String
  expiresAt : Nat
deriving Repr, DecidableEq

/-- Source `validateSession(sessionToken)`: run the query; if no row, return null;
if the joined user is inactive, invalidate the session as a side effect and
return null; otherwise return the session info.  The returned `DB` is the
database state after the call. -/
def validateSession (db : DB) (token : String) (now : Nat) :
    Option SessionInfo × DB :=
  match sessionQuery db token now with
  | none => (none, db)
  | some (s, u) =>
    if !u.is_active then
      (none, invalidateSession db token)
    else
      (some { userId := s.user_id, username := u.username,
              expiresAt := s.expires_at }, db)

/-- Source `cleanupSessions()`:
`DELETE FROM sessions WHERE expires_at < NOW() OR is_valid = false`,
returning the new state and the deleted row count. -/
def cleanupSessions (db : DB) (now : Nat) : DB × Nat :=
  let kept := db.sessions.filter (fun s =>
    !(decide (s.expires_at < now) || !s.is_valid))
  ({ db with sessions := kept }, db.sessions.length - kept.length)

/-- JWT claims produced by `generateToken` (`jwt.sign` payload with
`expiresIn: 1h`). -/
structure Claims where
  id : Nat
  username : String
  roles : List String
  exp : Nat
deriving Repr, DecidableEq

/-- Source `generateToken(user)` with `Date.now()` explicit. -/
def generateToken (user : UserWithRoles) (now : Nat) : Claims :=
  { id := user.id, username := user.username, roles := user.roles,
    exp := now + 3600000 }

/-- Source `verifyUser(email, password)` instrumented with the number of
`bcrypt.compare` invocations it performs: when no user row matches the email
it returns null having performed zero compares; otherwise it performs exactly
one compare against the stored hash. -/
def verifyUserInstr (H : String → String → String) (db : DB)
    (email password : String) : Option (Nat × String) × Nat :=
  match findUserByEmail db email with
  | none => (none, 0)
  | some user =>
    (if bcryptCompare H password user.password_hash then
       some (user.id, user.username)
     else none, 1)

/-- Source `verifyUser(email, password)`: the value the caller sees. -/
def verifyUser (H : String → String → String) (db : DB)
    (email password : String) : Option (Nat × String) :=
  (verifyUserInstr H db email password).1

/-- Source `logAuthEvent(userId, eventType, ipAddress, userAgent)`: `INSERT INTO
auth_logs ...`.  The insert is fallible (the spec's audit sink may error);
`auditOk` says whether the write succeeds.  The JavaScript `await`s the
insert with no surrounding try/catch, so a failure is thrown to the caller,
modelled as `Except.error`. -/
def logAuthEvent (auditOk : Bool) (db : DB) (userId : Option Nat)
    (eventType ipAddress userAgent : String) : Except String DB :=
  if auditOk then
    .ok { db with auth_logs := db.auth_logs ++
            [{ user_id := userId, event_type := eventType,
               ip_address := ipAddress, user_agent := userAgent }] }
  else .error "audit write failed"

/-- The client-visible result of `login`. -/
inductive LoginResponse where
  | failure (message : String)
  | success (user : UserWithRoles) (token : Claims) (session : NewSession)
deriving Repr, DecidableEq

/-- Source `UPDATE users SET last_login = CURRENT_TIMESTAMP WHERE id = $1`. -/
def recordLastLogin (db : DB) (userId : Nat) (now : Nat) : DB :=
  { db with users := db.users.map (fun u =>
      if u.id == userId then { u with last_login := some now } else u) }

/-- The complete `login(email, password, ipAddress, userAgent)` flow of the
auth-system notes: verify credentials; on failure audit `failed_login` and
return the generic failure; on success fetch roles, generate a JWT, create a
session (fresh `uuidv4()` passed as `freshToken`), record last login, audit
`login`, and return the success payload.  Audit failures propagate (the
`await logAuthEvent` is unguarded). -/
def login (H : String → String → String) (auditOk : Bool) (db : DB)
    (email password ipAddress userAgent : String) (freshToken : String)
    (now : Nat) : Except String (LoginResponse × DB) :=
  match verifyUser H db email password with
  | none =>
    (logAuthEvent auditOk db none "failed_login" ipAddress userAgent).map
      (fun db1 => (.failure "Invalid credentials", db1))
  | some (uid, _uname) =>
    match getUserWithRoles db uid with
    | none => .error "TypeError"
    | some userWithRoles =>
      let token := generateToken userWithRoles now
      let (session, db1) := createSession db uid ipAddress userAgent freshToken now
      let db2 := recordLastLogin db1 uid now
      (logAuthEvent auditOk db2 (some uid) "login" ipAddress userAgent).map
        (fun db3 => (.success userWithRoles token session, db3))

/-- The part of a `login` outcome the client can observe: the response body on
completion, or nothing when the operation threw. -/
def visibleResponse (r : Except String (LoginResponse × DB)) :
    Option LoginResponse :=
  match r with
  | .ok (resp, _) => some resp
  | .error _ => none

/-- Outcome of an Express middleware stage: respond 401, respond 403, or call
`next()`. -/
inductive MwResult where
  | unauthorized
  | forbidden
  | next
deriving Repr, DecidableEq

/-- The `req.user` payload attached by `authenticate` (decoded JWT claims);
`roles` is `Option` because the guard `req.user.roles && ...` in `authorize`
allows for an absent roles field. -/
structure ReqUser where
  id : Nat
  username : String
  roles : Option (List String)
deriving Repr, DecidableEq

/-- The RBAC middleware `authorize(requiredRoles)` of the auth-system notes:
401 when `req.user` is absent; otherwise allow iff
`requiredRoles.some(role => req.user.roles && req.user.roles.includes(role))`;
403 otherwise. -/
def authorize (requiredRoles : List String) (req_user : Option ReqUser) :
    MwResult :=
  match req_user with
  | none => .unauthorized
  | some u =>
    let hasRequired := requiredRoles.any (fun role =>
      match u.roles with
      | none => false
      | some rs => rs.contains role)
    if !hasRequired then .forbidden else .next

/-- The session data `hasRole` reads: `req.session.userId` and
`req.session.role` (absent session modelled as `none`). -/
structure SessionData where
  userId : Nat
  role : String
deriving Repr, DecidableEq

/-- Source `hasRole(role)` middleware of the simple auth server: 401 when there is no
session / no `userId`; 403 when the session role is neither the required role
nor `admin`; otherwise `next()`. -/
def hasRole (role : String) (sess : Option SessionData) : MwResult :=
  match sess with
  | none => .unauthorized
  | some s =>
    if s.role != role && s.role != "admin" then .forbidden else .next

/-- Modelled from the spec: the RBAC Authorizer policy of §4.5 — allow iff the
union of permissions across the principal's roles is a superset of the
required permission set — written out to be compared with the code's
`authorize`.  `rolePerms` maps a role name to the permission strings it
grants (an unknown role grants nothing). -/
def authorizeSpecPolicy (rolePerms : List (String × List String))
    (principalRoles : List String) (required : List String) : Bool :=
  let granted := principalRoles.flatMap (fun r =>
    match rolePerms.find? (fun p => p.1 == r) with
    | none => []
    | some p => p.2)
  required.all (fun perm => granted.contains perm)

/-- Error kinds of the spec taxonomy surfaced by the façade operations. -/
inductive AuthError where
  | tokenInvalid
  | permissionDenied
deriving Repr, DecidableEq

/-- Modelled from the spec: the Auth Façade operation
`authorizeRequest(token, requiredPermissions)` of §4.8 is not itself a snippet
in the notes; it is the evident composition of the notes' `validateSession`
(resolve token to principal) with the notes' role check (`rolesOfUser` +
any-of-required membership), a missing principal surfacing as `TokenInvalid`
per the §7 taxonomy. -/
def authorizeRequest (db : DB) (token : String) (now : Nat)
    (requiredRoles : List String) : Except AuthError SessionInfo × DB :=
  match validateSession db token now with
  | (none, db1) => (.error .tokenInvalid, db1)
  | (some info, db1) =>
    let roles := rolesOfUser db1 info.userId
    if requiredRoles.any (fun r => roles.contains r) then (.ok info, db1)
    else (.error .permissionDenied, db1)

/-- Source `logout(sessionToken)`: invalidate the session and answer the constant
success message (`invalidateSession` always succeeds; the logout responses in
the notes are `{message: 'Logged out successfully'}`). -/
def logout (db : DB) (token : String) : String × DB :=
  ("Logged out successfully", invalidateSession db token)

/-- Per-client state of the fixed-window rate limiter. -/
structure LimiterState where
  count : Nat
  resetAt : Nat
deriving Repr, DecidableEq

/-- Modelled from the spec: the `express-rate-limit` middleware is a
third-party dependency whose implementation is not in the notes; the notes
configure it (`windowMs`, `max`/`limit`) and rely on its documented
fixed-window behaviour — per client key, a hit counter that resets `windowMs`
after the window opened; a request increments the counter and is admitted iff
the counter does not exceed the configured maximum.  `none` is a key with no
window yet. -/
def rateLimitStep (windowMs maxHits : Nat) (st : Option LimiterState)
    (now : Nat) : Bool × LimiterState :=
  let fresh : LimiterState := { count := 0, resetAt := now + windowMs }
  let base := match st with
    | none => fresh
    | some s => if s.resetAt ≤ now then fresh else s
  let hit : LimiterState := { base with count := base.count + 1 }
  (decide (hit.count ≤ maxHits), hit)

/-- Decisions of the limiter over a sequence of request times. -/
def rateLimitRun (windowMs maxHits : Nat) (st : Option LimiterState) :
    List Nat → List Bool
  | [] => []
  | t :: ts =>
    let (ok, st1) := rateLimitStep windowMs maxHits st t
    ok :: rateLimitRun windowMs maxHits (some st1) ts

/-- Limiter state after a sequence of request times. -/
def rateLimitState (windowMs maxHits : Nat) (st : Option LimiterState) :
    List Nat → Option LimiterState
  | [] => st
  | t :: ts =>
    rateLimitState windowMs maxHits (some (rateLimitStep windowMs maxHits st t).2) ts

/-- The `loginLimiter` window: `windowMs: 15 * 60 * 1000`. -/
def loginLimiterWindowMs : Nat := 15 * 60 * 1000

/-- The `loginLimiter` threshold: `max: 5` attempts per window. -/
def loginLimiterMax : Nat := 5

/-- The `loginLimiter` rejection message. -/
def loginLimiterMessage : String :=
  "Too many login attempts, please try again later"

/-- The visible outcome of `POST /api/login` with `loginLimiter` in front of
the handler. -/
inductive LoginRouteResponse where
  | throttled (message : String)
  | handled (result : Except String (LoginResponse × DB))
deriving Repr

/-- Source `app.post('/api/login', loginLimiter, loginHandler)`: the limiter runs
first; only when it admits the request does the login handler run (and with
it the credential-store lookup and hash verification).  The second component
is the updated limiter state, the third the number of `bcrypt.compare` calls
performed serving the request. -/
def loginRoute (H : String → String → String) (auditOk : Bool) (db : DB)
    (st : Option LimiterState) (email password ipAddress userAgent : String)
    (freshToken : String) (now : Nat) :
    LoginRouteResponse × LimiterState × Nat :=
  let res := rateLimitStep loginLimiterWindowMs loginLimiterMax st now
  if res.1 then
    (.handled (login H auditOk db email password ipAddress userAgent freshToken now),
     res.2, (verifyUserInstr H db email password).2)
  else
    (.throttled loginLimiterMessage, res.2, 0)

/-- Model of `uuidv4()` as a function of the 122 random bits the generator
draws: an RFC 4122 version-4 UUID is a 128-bit value whose version field
(4 bits) is fixed to `0100` and whose variant field (2 bits) is fixed to
`10`; the remaining 122 bits are random.  The result is the UUID as a
natural number below `2^128`: bits 0–61 and 64–75 and 80–127 carry the
randomness, bits 62–63 hold the variant `10`, bits 76–79 the version `4`. -/
def uuidv4 (r : Nat) : Nat :=
  (r % 2 ^ 122 % 2 ^ 62) + 2 * 2 ^ 62 +
    (r % 2 ^ 122 / 2 ^ 62 % 2 ^ 12) * 2 ^ 64 +
    4 * 2 ^ 76 + (r % 2 ^ 122 / 2 ^ 74) * 2 ^ 80

/-- Recover the 122 random bits from a version-4 UUID value. -/
def uuidv4Bits (t : Nat) : Nat :=
  (t % 2 ^ 62) + ((t / 2 ^ 64) % 2 ^ 12) * 2 ^ 62 + (t / 2 ^ 80) * 2 ^ 74

/-- All values `uuidv4` can produce. -/
def uuidv4Tokens : Finset Nat :=
  (Finset.range (2 ^ 122)).image uuidv4

/-- Concrete digest function used for closed instances of the development. -/
def demoHash : String → String → String :=
  fun salt p => String.append (String.append salt ":") p

/-- Concrete registered user used in closed instances. -/
def demoAlice : UserRow :=
  { id := 1, username := "alice", email := "alice@example.com",
    password_hash := hashPassword demoHash "salt1" "Secret123!",
    is_active := true, last_login := none }

/-- Concrete session row used in closed instances. -/
def demoSession : SessionRow :=
  { user_id := 1, token := "tok-1", ip_address := "127.0.0.1",
    user_agent := "ua", expires_at := 2000, is_valid := true }

/-- Concrete database used in closed instances: one active user with role
`viewer`, one valid session expiring at `2000`. -/
def demoDB : DB :=
  { users := [demoAlice], roles := [{ id := 1, name := "viewer" }],
    user_roles := [{ user_id := 1, role_id := 1 }],
    sessions := [demoSession], auth_logs := [] }

/-- Variant of `demoDB` whose only user has been soft-deactivated. -/
def demoInactiveDB : DB :=
  { demoDB with users := [{ demoAlice with is_active := false }] }

end NotesAuth

namespace NotesAuth

/-! Helper lemmas shared by several of the claim theorems. -/

/-- After `invalidateSession db token`, no session row passes the
`validateSession` WHERE clause for `token`. -/
theorem filter_sessionLive_invalidate (db : DB) (token : String) (now : Nat) :
    (invalidateSession db token).sessions.filter (sessionLive token now) = [] := by
  rw [List.filter_eq_nil_iff]
  intro s hs
  simp only [invalidateSession, List.mem_map] at hs
  obtain ⟨a, _, rfl⟩ := hs
  by_cases h : a.token == token
  · simp [h, sessionLive]
  · simp [h, sessionLive]

/-- If no session row passes the WHERE clause, the join query is empty. -/
theorem sessionQuery_eq_none_of_filter_nil {db : DB} {token : String} {now : Nat}
    (h : db.sessions.filter (sessionLive token now) = []) :
    sessionQuery db token now = none := by
  simp [sessionQuery, h]

/-- If the join query is empty, `validateSession` returns null and leaves the
database unchanged. -/
theorem validateSession_of_query_none {db : DB} {token : String} {now : Nat}
    (h : sessionQuery db token now = none) :
    validateSession db token now = (none, db) := by
  simp [validateSession, h]

/-- When `validateSession` yields no principal, `authorizeRequest` fails with
`TokenInvalid`. -/
theorem authorizeRequest_of_validate_none {db db1 : DB} {token : String}
    {now : Nat} (req : List String)
    (h : validateSession db token now = (none, db1)) :
    authorizeRequest db token now req = (.error .tokenInvalid, db1) := by
  simp [authorizeRequest, h]

/-- If every session row carrying `token` is already invalid or expired at
`now`, the WHERE clause of `validateSession` filters everything out. -/
theorem filter_sessionLive_nil_of_dead {db : DB} {token : String} {now : Nat}
    (h : ∀ s ∈ db.sessions, s.token = token → s.is_valid = false ∨ s.expires_at ≤ now) :
    db.sessions.filter (sessionLive token now) = [] := by
  rw [List.filter_eq_nil_iff]
  intro s hs
  simp only [sessionLive, Bool.and_eq_true, beq_iff_eq, decide_eq_true_eq, not_and]
  rintro ⟨htok, hval⟩
  rcases h s hs htok with hdead | hexp
  · rw [hval] at hdead
    exact absurd hdead (by simp)
  · omega

/-- C5: `logout` is idempotent — the second call on the same token returns the
same observable success result as the first and leaves the state exactly as
the first call left it; logging out an already-invalid session is not an
error. -/
theorem C5_logout_idempotent (db : DB) (token : String) :
    logout (logout db token).2 token = logout db token := by
  simp only [logout, invalidateSession, List.map_map, Prod.mk.injEq, true_and]
  refine congrArg (fun l => { db with sessions := l }) ?_
  apply List.map_congr_left
  intro a _
  by_cases h : a.token == token
  · simp [Function.comp, h]
  · simp [Function.comp, h]

/-- C8: round-trip — `hashPassword` followed by `verifyPassword` with the
original plaintext returns true for every per-call salt, the salt is embedded
in the hash record, and `verifyPassword` with a different plaintext returns
false whenever the underlying digest does not collide on the two plaintexts
(the "overwhelming probability" caveat made explicit). -/
theorem C8_hash_verify_roundtrip (H : String → String → String)
    (salt p q : String) :
    verifyPassword H p (hashPassword H salt p) = true ∧
    (hashPassword H salt p).salt = salt ∧
    (H salt q ≠ H salt p →
      verifyPassword H q (hashPassword H salt p) = false) := by
  refine ⟨?_, rfl, ?_⟩
  · simp [verifyPassword, hashPassword, bcryptCompare, bcryptHash]
  · intro hne
    simp [verifyPassword, hashPassword, bcryptCompare, bcryptHash, hne]

/-- Witness for C8 at a concrete digest function, salt and plaintexts. -/
theorem C8_witness :
    verifyPassword demoHash "Secret123!"
      (hashPassword demoHash "salt1" "Secret123!") = true ∧
    (hashPassword demoHash "salt1" "Secret123!").salt = "salt1" ∧
    verifyPassword demoHash "wrong"
      (hashPassword demoHash "salt1" "Secret123!") = false := by
  have h := C8_hash_verify_roundtrip demoHash "salt1" "Secret123!" "wrong"
  exact ⟨h.1, h.2.1, h.2.2 (by decide)⟩

/-- C2 counterexample: the code's `authorize` does not implement the
permission-union-superset policy.  With required `["read", "write"]` and a
principal holding only role `read` (each role granting exactly its own name
as permission), the superset policy denies but the code allows; and with an
empty required set the superset policy allows (every set contains the empty
set) but the code denies a principal with role `viewer`. -/
theorem C2_counterexample :
    authorize ["read", "write"]
      (some { id := 1, username := "alice", roles := some ["read"] }) =
      .next ∧
    authorizeSpecPolicy [("read", ["read"]), ("write", ["write"])]
      ["read"] ["read", "write"] = false ∧
    authorize []
      (some { id := 1, username := "alice", roles := some ["viewer"] }) =
      .forbidden ∧
    authorizeSpecPolicy [("viewer", ["read"])] ["viewer"] [] = true := by
  refine ⟨rfl, by decide, rfl, by decide⟩

/-- C2 (amended): `authorize(requiredRoles)` grants access to an authenticated
principal exactly when the principal's role list contains at least one of the
required role names (existential matching on role names, with no
role-to-permission indirection); deny-by-default still holds — a missing
principal yields 401, an absent or empty role list never grants, and an empty
`requiredRoles` list always denies; `hasRole(role)` of the simple auth server
grants exactly to the session roles `role` and `admin`. -/
theorem C2_authorize_any_required_role (required : List String) (u : ReqUser)
    (role : String) (s : SessionData) :
    authorize required none = .unauthorized ∧
    (authorize required (some u) = .next ↔
      ∃ r ∈ required, (u.roles.getD []).contains r = true) ∧
    (u.roles = none ∨ u.roles = some [] →
      authorize required (some u) ≠ .next) ∧
    authorize [] (some u) = .forbidden ∧
    (hasRole role (some s) = .next ↔ (s.role = role ∨ s.role = "admin")) ∧
    hasRole role none = .unauthorized := by
  have hmatch : (required.any (fun r =>
      match u.roles with
      | none => false
      | some rs => rs.contains r)) =
      required.any (fun r => (u.roles.getD []).contains r) := by
    cases u.roles <;> simp
  have key : (authorize required (some u) = .next) ↔
      (required.any fun r => (u.roles.getD []).contains r) = true := by
    simp only [authorize, hmatch]
    cases hany : required.any fun r => (u.roles.getD []).contains r
    · simp
    · simp
  refine ⟨rfl, ?_, ?_, rfl, ?_, rfl⟩
  · rw [key, List.any_eq_true]
  · intro hroles
    rw [Ne, key, List.any_eq_true]
    rintro ⟨r, _, hc⟩
    rcases hroles with h | h <;> rw [h] at hc <;> simp at hc
  · rw [hasRole]
    by_cases h1 : s.role = role
    · simp [h1]
    · by_cases h2 : s.role = "admin"
      · simp [h1, h2]
      · simp [h1, h2]

/-- Witness for C2 (amended) at concrete inputs: a principal with role
`viewer` passes `authorize(["viewer"])`, a principal with no roles field is
denied, and `hasRole` admits the `admin` session. -/
theorem C2_witness :
    authorize ["viewer"]
      (some { id := 1, username := "alice", roles := some ["viewer"] }) =
      .next ∧
    authorize ["viewer"]
      (some { id := 2, username := "bob", roles := none }) ≠ .next ∧
    hasRole "user" (some { userId := 3, role := "admin" }) = .next := by
  have h1 := C2_authorize_any_required_role ["viewer"]
    { id := 1, username := "alice", roles := some ["viewer"] } "user"
    { userId := 3, role := "admin" }
  have h2 := C2_authorize_any_required_role ["viewer"]
    { id := 2, username := "bob", roles := none } "user"
    { userId := 3, role := "admin" }
  refine ⟨h1.2.1.mpr ⟨"viewer", by decide, by decide⟩,
    h2.2.2.1 (Or.inl rfl), h1.2.2.2.2.1.mpr (Or.inr rfl)⟩

/-- Reducing `login` on the failed-credentials path with a working audit
sink. -/
theorem login_failure_path {H : String → String → String} {db : DB}
    {email password : String} (ip ua tok : String) (now : Nat)
    (h : verifyUser H db email password = none) :
    login H true db email password ip ua tok now =
      .ok (.failure "Invalid credentials",
           { db with auth_logs := db.auth_logs ++
              [{ user_id := none, event_type := "failed_login",
                 ip_address := ip, user_agent := ua }] }) := by
  simp [login, h, logAuthEvent, Except.map]

/-- C3 counterexample: password verification is not performed against a dummy
hash when no user matches the identifier — the lookup-miss path performs zero
`bcrypt.compare` calls, while the wrong-password path for an existing user
performs one. -/
theorem C3_counterexample :
    (verifyUserInstr demoHash demoDB "nobody@example.com" "pw").2 = 0 ∧
    (verifyUserInstr demoHash demoDB "alice@example.com" "wrong").2 = 1 := by
  exact ⟨rfl, rfl⟩

/-- C3 (amended): the user-visible result of a failed login is the same
generic `Invalid credentials` response whether the identifier matched no user
or the password was wrong (two-run indistinguishability of the response); but
the verification step is not taken on the lookup-miss path — `verifyUser`
returns immediately with zero `bcrypt.compare` calls when no user is found,
and performs exactly one compare when a user is found. -/
theorem C3_failure_indistinguishable (H : String → String → String)
    (dbA dbB : DB) (eA pA eB pB ipA uaA ipB uaB tokA tokB : String)
    (nowA nowB : Nat)
    (hA : verifyUser H dbA eA pA = none)
    (hB : verifyUser H dbB eB pB = none) :
    visibleResponse (login H true dbA eA pA ipA uaA tokA nowA) =
      some (.failure "Invalid credentials") ∧
    visibleResponse (login H true dbA eA pA ipA uaA tokA nowA) =
      visibleResponse (login H true dbB eB pB ipB uaB tokB nowB) ∧
    (findUserByEmail dbA eA = none → (verifyUserInstr H dbA eA pA).2 = 0) ∧
    (∀ u, findUserByEmail dbA eA = some u →
      (verifyUserInstr H dbA eA pA).2 = 1) := by
  rw [login_failure_path ipA uaA tokA nowA hA,
      login_failure_path ipB uaB tokB nowB hB]
  refine ⟨rfl, rfl, ?_, ?_⟩
  · intro hf
    simp [verifyUserInstr, hf]
  · intro u hf
    simp [verifyUserInstr, hf]

/-- Witness for C3 (amended): the lookup-miss run and the wrong-password run
against the demo database. -/
theorem C3_witness :
    visibleResponse
      (login demoHash true demoDB "nobody@example.com" "pw" "ip" "ua" "t2" 5) =
      some (.failure "Invalid credentials") ∧
    visibleResponse
      (login demoHash true demoDB "nobody@example.com" "pw" "ip" "ua" "t2" 5) =
      visibleResponse
        (login demoHash true demoDB "alice@example.com" "wrong" "ip" "ua" "t3" 7) ∧
    (verifyUserInstr demoHash demoDB "nobody@example.com" "pw").2 = 0 := by
  have h := C3_failure_indistinguishable demoHash demoDB demoDB
    "nobody@example.com" "pw" "alice@example.com" "wrong"
    "ip" "ua" "ip" "ua" "t2" "t3" 5 7 (by decide) (by decide)
  exact ⟨h.1, h.2.1, h.2.2.1 (by decide)⟩

/-- When `verifyUser` succeeds, the subsequent `getUserWithRoles` lookup on
the returned id finds a user record. -/
theorem getUserWithRoles_of_verifyUser {H : String → String → String}
    {db : DB} {email password : String} {uid : Nat} {un : String}
    (h : verifyUser H db email password = some (uid, un)) :
    ∃ w, getUserWithRoles db uid = some w := by
  unfold verifyUser verifyUserInstr at h
  cases hf : findUserByEmail db email with
  | none =>
    rw [hf] at h
    simp at h
  | some u =>
    rw [hf] at h
    have hu : u ∈ db.users := List.mem_of_find?_eq_some hf
    have hid : uid = u.id := by
      by_cases hc : bcryptCompare H password u.password_hash
      · simp [hc] at h
        exact h.1.symm
      · simp [hc] at h
    have : (db.users.find? (fun v => v.id == uid)).isSome := by
      rw [List.find?_isSome]
      exact ⟨u, hu, by simp [hid]⟩
    obtain ⟨v, hv⟩ := Option.isSome_iff_exists.mp this
    refine ⟨{ id := v.id, username := v.username, email := v.email,
              is_active := v.is_active, roles := rolesOfUser db uid }, ?_⟩
    simp [getUserWithRoles, findUserById, hv]

/-- C6 (amended): a failure to write the audit event is not absorbed — the
unguarded `await logAuthEvent` makes the audit write part of the critical
path, so whenever the audit sink errors, `login` fails with that error
instead of completing with its normal result (on the success path the session
insert and last-login update have already been applied when the error is
thrown). -/
theorem C6_audit_failure_fails_login (H : String → String → String) (db : DB)
    (email password ip ua tok : String) (now : Nat) :
    login H false db email password ip ua tok now =
      .error "audit write failed" := by
  unfold login
  cases hv : verifyUser H db email password with
  | none => simp [logAuthEvent, Except.map]
  | some pr =>
    obtain ⟨uid, un⟩ := pr
    obtain ⟨w, hw⟩ := getUserWithRoles_of_verifyUser hv
    simp [hw, logAuthEvent, Except.map]

/-- C6 counterexample: on the demo database a successful credential check
still ends in an error when the audit write fails, while the same call with a
working audit sink completes — the audit write does block the authentication
operation. -/
theorem C6_counterexample :
    login demoHash false demoDB "alice@example.com" "Secret123!"
      "ip" "ua" "tok-2" 5 = .error "audit write failed" ∧
    (login demoHash true demoDB "alice@example.com" "Secret123!"
      "ip" "ua" "tok-2" 5).isOk = true := by
  exact ⟨rfl, rfl⟩

/-- C1: a session that is expired or marked invalid authorizes nothing — if
every stored row for a token is invalid or past its expiry, `validateSession`
returns no principal and `authorizeRequest` fails with `TokenInvalid`; and
unconditionally, once `logout` has returned for a token, any subsequent
`validateSession`/`authorizeRequest` with that token fails the same way. -/
theorem C1_no_authorization_when_expired_or_invalid (db : DB) (token : String)
    (now : Nat) (req : List String) :
    ((∀ s ∈ db.sessions, s.token = token →
        s.is_valid = false ∨ s.expires_at ≤ now) →
      (validateSession db token now).1 = none ∧
      (authorizeRequest db token now req).1 =
        Except.error AuthError.tokenInvalid) ∧
    ((validateSession (logout db token).2 token now).1 = none ∧
     (authorizeRequest (logout db token).2 token now req).1 =
       Except.error AuthError.tokenInvalid) := by
  constructor
  · intro h
    have hval := validateSession_of_query_none
      (sessionQuery_eq_none_of_filter_nil (filter_sessionLive_nil_of_dead h))
    rw [hval, authorizeRequest_of_validate_none req hval]
    exact ⟨rfl, rfl⟩
  · show (validateSession (invalidateSession db token) token now).1 = none ∧
      (authorizeRequest (invalidateSession db token) token now req).1 =
        Except.error AuthError.tokenInvalid
    have hval := validateSession_of_query_none
      (sessionQuery_eq_none_of_filter_nil
        (filter_sessionLive_invalidate db token now))
    rw [hval, authorizeRequest_of_validate_none req hval]
    exact ⟨rfl, rfl⟩

/-- Witness for C1: the demo session is expired at time 3000, and after
`logout` its token validates to nothing. -/
theorem C1_witness :
    (validateSession demoDB "tok-1" 3000).1 = none ∧
    (authorizeRequest demoDB "tok-1" 3000 ["viewer"]).1 =
      Except.error AuthError.tokenInvalid ∧
    (validateSession (logout demoDB "tok-1").2 "tok-1" 3000).1 = none := by
  have h := C1_no_authorization_when_expired_or_invalid demoDB "tok-1" 3000
    ["viewer"]
  have h1 := h.1 (by decide)
  exact ⟨h1.1, h1.2, h.2.1⟩

/-- Restriction of the `validateSession` WHERE clause to the rows carrying
the token. -/
theorem filter_sessionLive_split (l : List SessionRow) (token : String)
    (now : Nat) :
    l.filter (sessionLive token now) =
      (l.filter (fun x => x.token == token)).filter
        (fun x => x.is_valid && decide (now < x.expires_at)) := by
  rw [List.filter_filter]
  apply List.filter_congr
  intro x _
  simp only [sessionLive]
  cases x.token == token <;> cases x.is_valid <;>
    cases decide (now < x.expires_at) <;> rfl

/-- The expired-or-invalid sweep never removes a row that still passes the
`validateSession` WHERE clause, so the sweep does not change what the read
query sees. -/
theorem cleanup_preserves_live_filter (l : List SessionRow) (token : String)
    (now : Nat) :
    (l.filter (fun s => !(decide (s.expires_at < now) || !s.is_valid))).filter
        (sessionLive token now) =
      l.filter (sessionLive token now) := by
  rw [List.filter_filter]
  apply List.filter_congr
  intro x _
  by_cases he : now < x.expires_at
  · have : ¬ x.expires_at < now := by omega
    cases x.token == token <;> cases hx : x.is_valid <;>
      simp [sessionLive, he, this, hx]
  · cases x.token == token <;> cases hx : x.is_valid <;>
      simp [sessionLive, he, hx]

/-- The sweep is invisible to `validateSession` reads: validating any token at
any time gives the same principal before and after `cleanupSessions`. -/
theorem validateSession_cleanup_fst (db : DB) (token : String) (now : Nat) :
    (validateSession (cleanupSessions db now).1 token now).1 =
      (validateSession db token now).1 := by
  have hq : sessionQuery (cleanupSessions db now).1 token now =
      sessionQuery db token now := by
    show ((db.sessions.filter _).filter (sessionLive token now)).findSome? _ =
      (db.sessions.filter (sessionLive token now)).findSome? _
    rw [cleanup_preserves_live_filter]
    rfl
  unfold validateSession
  rw [hq]
  cases h : sessionQuery db token now with
  | none => rfl
  | some pr =>
    obtain ⟨s, u⟩ := pr
    by_cases ha : u.is_active <;> simp [ha]

/-- C4: logical expiry is checked at read time — for a token stored with
expiry `issued + ttl` (any TTL configuration, `ttl ≥ 1`), `validateSession`
at `issued + ttl + 1` returns no principal even before the sweep runs, the
sweep changes nothing about that read, and `validateSession` at
`issued + ttl - 1` succeeds with the session's principal. -/
theorem C4_expiry_checked_at_read_time (db : DB) (token : String)
    (s : SessionRow) (u : UserRow) (issued ttl : Nat)
    (hone : db.sessions.filter (fun x => x.token == token) = [s])
    (hvalid : s.is_valid = true) (hexp : s.expires_at = issued + ttl)
    (httl : 1 ≤ ttl)
    (huser : findUserById db s.user_id = some u)
    (hactive : u.is_active = true) :
    (validateSession db token (issued + ttl + 1)).1 = none ∧
    (validateSession (cleanupSessions db (issued + ttl + 1)).1 token
      (issued + ttl + 1)).1 = none ∧
    (validateSession db token (issued + ttl - 1)).1 =
      some { userId := s.user_id, username := u.username,
             expiresAt := s.expires_at } := by
  have hdead : db.sessions.filter (sessionLive token (issued + ttl + 1)) = [] := by
    rw [filter_sessionLive_split, hone]
    have : decide (issued + ttl + 1 < s.expires_at) = false := by
      rw [hexp]
      simp
    simp [List.filter, this]
  have hnone : (validateSession db token (issued + ttl + 1)).1 = none := by
    rw [validateSession_of_query_none (sessionQuery_eq_none_of_filter_nil hdead)]
  refine ⟨hnone, ?_, ?_⟩
  · rw [validateSession_cleanup_fst, hnone]
  · have hlive : db.sessions.filter (sessionLive token (issued + ttl - 1)) = [s] := by
      rw [filter_sessionLive_split, hone]
      have : decide (issued + ttl - 1 < s.expires_at) = true := by
        rw [hexp]
        simp only [decide_eq_true_eq]
        omega
      simp [List.filter, this, hvalid]
    have hq : sessionQuery db token (issued + ttl - 1) = some (s, u) := by
      unfold sessionQuery
      rw [hlive]
      unfold findUserById at huser
      simp [List.findSome?, huser]
    simp [validateSession, hq, hactive]

/-- Witness for C4 with the demo database: `issued = 1000`, `ttl = 1000`. -/
theorem C4_witness :
    (validateSession demoDB "tok-1" 2001).1 = none ∧
    (validateSession (cleanupSessions demoDB 2001).1 "tok-1" 2001).1 = none ∧
    (validateSession demoDB "tok-1" 1999).1 =
      some { userId := 1, username := "alice", expiresAt := 2000 } := by
  have h := C4_expiry_checked_at_read_time demoDB "tok-1" demoSession demoAlice
    1000 1000 (by decide) (by decide) (by decide) (by decide) (by decide)
    (by decide)
  exact ⟨h.1, h.2.1, h.2.2⟩

/-- C10: when the owning user has been soft-deactivated, `validateSession`
returns no principal and, as a side effect, marks the session invalid, so the
token keeps failing validation at every later time even after the user's
active flag is restored. -/
theorem C10_inactive_user_invalidates_session (db : DB) (token : String)
    (now : Nat) (s : SessionRow) (u : UserRow) (uid2 now2 : Nat)
    (hq : sessionQuery db token now = some (s, u))
    (hinactive : u.is_active = false) :
    validateSession db token now = (none, invalidateSession db token) ∧
    (validateSession (setUserActive (invalidateSession db token) uid2 true)
      token now2).1 = none := by
  refine ⟨by simp [validateSession, hq, hinactive], ?_⟩
  have hfilter : (setUserActive (invalidateSession db token) uid2
      true).sessions.filter (sessionLive token now2) = [] := by
    show (invalidateSession db token).sessions.filter (sessionLive token now2) = []
    exact filter_sessionLive_invalidate db token now2
  rw [validateSession_of_query_none (sessionQuery_eq_none_of_filter_nil hfilter)]

/-- Witness for C10: the demo database with its user deactivated; the token
fails now and also at a later time after the user is reactivated. -/
theorem C10_witness :
    validateSession demoInactiveDB "tok-1" 1000 =
      (none, invalidateSession demoInactiveDB "tok-1") ∧
    (validateSession
      (setUserActive (invalidateSession demoInactiveDB "tok-1") 1 true)
      "tok-1" 1500).1 = none := by
  have h := C10_inactive_user_invalidates_session demoInactiveDB "tok-1" 1000
    demoSession { demoAlice with is_active := false } 1 1500 (by decide)
    (by decide)
  exact ⟨h.1, h.2⟩

/-- Within one window (all request times before the reset time), the limiter
never resets: the j-th decision admits iff the counter `c + j + 1` stays
within the threshold, and the counter just accumulates. -/
theorem rateLimit_no_reset (windowMs maxHits : Nat) (ts : List Nat) :
    ∀ (c r : Nat), (∀ t ∈ ts, t < r) →
      rateLimitRun windowMs maxHits (some ⟨c, r⟩) ts =
        (List.range ts.length).map (fun j => decide (c + j + 1 ≤ maxHits)) ∧
      rateLimitState windowMs maxHits (some ⟨c, r⟩) ts =
        some ⟨c + ts.length, r⟩ := by
  induction ts with
  | nil =>
    intro c r _
    simp [rateLimitRun, rateLimitState]
  | cons t ts ih =>
    intro c r h
    have hnr : ¬ r ≤ t := by
      have := h t (by simp)
      omega
    have hstep : rateLimitStep windowMs maxHits (some ⟨c, r⟩) t =
        (decide (c + 1 ≤ maxHits), ⟨c + 1, r⟩) := by
      simp [rateLimitStep, hnr]
    have ihh := ih (c + 1) r (fun x hx => h x (by simp [hx]))
    constructor
    · simp only [rateLimitRun, hstep, ihh.1, List.length_cons,
        List.range_succ_eq_map, List.map_cons, List.map_map]
      congr 1
      apply List.map_congr_left
      intro j _
      simp only [Function.comp]
      apply decide_eq_decide.mpr
      omega
    · simp only [rateLimitState, hstep, ihh.2, List.length_cons]
      have : c + 1 + ts.length = c + (ts.length + 1) := by omega
      rw [this]

/-- C7: with a threshold of `maxHits` attempts per window `windowMs`, the
first `maxHits` attempts inside one window are admitted and the following
attempt in the same window is throttled; an attempt after the window has
elapsed is admitted again; and a throttled request is rejected with the
configured message, with the credential store never consulted (zero
`bcrypt.compare` calls and no user lookup — the handler does not run). -/
theorem C7_rate_limiting (windowMs maxHits t0 : Nat) (ts : List Nat)
    (tNext : Nat) (hmax : 1 ≤ maxHits) (hlen : ts.length = maxHits)
    (hts : ∀ t ∈ ts, t < t0 + windowMs) (hnext : t0 + windowMs ≤ tNext) :
    rateLimitRun windowMs maxHits none (t0 :: ts) =
      List.replicate maxHits true ++ [false] ∧
    (rateLimitStep windowMs maxHits
      (rateLimitState windowMs maxHits none (t0 :: ts)) tNext).1 = true ∧
    (∀ (H : String → String → String) (auditOk : Bool) (db : DB)
      (st : Option LimiterState) (email password ip ua tok : String)
      (now : Nat),
      (rateLimitStep loginLimiterWindowMs loginLimiterMax st now).1 = false →
      loginRoute H auditOk db st email password ip ua tok now =
        (.throttled loginLimiterMessage,
         (rateLimitStep loginLimiterWindowMs loginLimiterMax st now).2, 0)) := by
  have hstep0 : rateLimitStep windowMs maxHits none t0 =
      (decide (1 ≤ maxHits), ⟨1, t0 + windowMs⟩) := by
    simp [rateLimitStep]
  have hrest := rateLimit_no_reset windowMs maxHits ts 1 (t0 + windowMs) hts
  refine ⟨?_, ?_, ?_⟩
  · simp only [rateLimitRun, hstep0, hrest.1]
    obtain ⟨k, rfl⟩ : ∃ k, maxHits = k + 1 := ⟨maxHits - 1, by omega⟩
    rw [hlen, List.range_succ, List.map_append, List.replicate_succ]
    have hhead : decide (1 ≤ k + 1) = true := by simp
    have htail : (List.range k).map (fun j => decide (1 + j + 1 ≤ k + 1)) =
        List.replicate k true := by
      have : ∀ j ∈ List.range k, decide (1 + j + 1 ≤ k + 1) = true := by
        intro j hj
        rw [List.mem_range] at hj
        simp only [decide_eq_true_eq]
        omega
      calc (List.range k).map (fun j => decide (1 + j + 1 ≤ k + 1))
          = (List.range k).map (fun _ => true) := List.map_congr_left this
        _ = List.replicate k true := by
            simp [List.map_const]
    rw [hhead, htail]
    simp
  · simp only [rateLimitState, hstep0, hrest.2]
    have hreset : (⟨1 + ts.length, t0 + windowMs⟩ : LimiterState).resetAt ≤ tNext := hnext
    simp [rateLimitStep, hreset, hmax]
  · intro H auditOk db st email password ip ua tok now hthrottled
    simp [loginRoute, hthrottled]

/-- Witness for C7 with the notes' configuration (5 attempts/15 min): six
same-window attempts, a post-window attempt, and a throttled route call that
performs zero credential-store work. -/
theorem C7_witness :
    rateLimitRun 900000 5 none [0, 1, 2, 3, 4, 5] =
      [true, true, true, true, true, false] ∧
    (rateLimitStep 900000 5
      (rateLimitState 900000 5 none [0, 1, 2, 3, 4, 5]) 900000).1 = true ∧
    loginRoute demoHash true demoDB (some ⟨5, 900000⟩) "alice@example.com"
      "Secret123!" "ip" "ua" "tok" 10 =
      (.throttled loginLimiterMessage,
       (rateLimitStep loginLimiterWindowMs loginLimiterMax
         (some ⟨5, 900000⟩) 10).2, 0) := by
  have h := C7_rate_limiting 900000 5 0 [1, 2, 3, 4, 5] 900000 (by decide)
    (by decide) (by decide) (by decide)
  refine ⟨?_, h.2.1, h.2.2 demoHash true demoDB (some ⟨5, 900000⟩)
    "alice@example.com" "Secret123!" "ip" "ua" "tok" 10 (by decide)⟩
  rw [h.1]
  rfl

/-- The 122 random bits are recoverable from a generated UUID value. -/
theorem uuidv4Bits_uuidv4 {r : Nat} (h : r < 2 ^ 122) :
    uuidv4Bits (uuidv4 r) = r := by
  unfold uuidv4 uuidv4Bits
  rw [Nat.mod_eq_of_lt h]
  obtain ⟨a, ha, ha2⟩ : ∃ a, r % 2 ^ 62 = a ∧ a < 2 ^ 62 :=
    ⟨_, rfl, Nat.mod_lt _ (by norm_num)⟩
  obtain ⟨b, hb, hb2⟩ : ∃ b, r / 2 ^ 62 % 2 ^ 12 = b ∧ b < 2 ^ 12 :=
    ⟨_, rfl, Nat.mod_lt _ (by norm_num)⟩
  obtain ⟨c, hc, hc2⟩ : ∃ c, r / 2 ^ 74 = c ∧ c < 2 ^ 48 :=
    ⟨_, rfl, by omega⟩
  rw [ha, hb, hc]
  have hr : r = a + 2 ^ 62 * b + 2 ^ 74 * c := by omega
  have e1 : (a + 2 * 2 ^ 62 + b * 2 ^ 64 + 4 * 2 ^ 76 + c * 2 ^ 80) % 2 ^ 62 =
      a := by omega
  have e2 : (a + 2 * 2 ^ 62 + b * 2 ^ 64 + 4 * 2 ^ 76 + c * 2 ^ 80) / 2 ^ 64 %
      2 ^ 12 = b := by omega
  have e3 : (a + 2 * 2 ^ 62 + b * 2 ^ 64 + 4 * 2 ^ 76 + c * 2 ^ 80) / 2 ^ 80 =
      c := by omega
  rw [e1, e2, e3]
  omega

/-- The token generator reaches exactly `2 ^ 122` distinct values. -/
theorem uuidv4Tokens_card : uuidv4Tokens.card = 2 ^ 122 := by
  rw [uuidv4Tokens, Finset.card_image_of_injOn, Finset.card_range]
  intro a ha b hb hab
  rw [Finset.mem_coe, Finset.mem_range] at ha hb
  have hba := congrArg uuidv4Bits hab
  rwa [uuidv4Bits_uuidv4 ha, uuidv4Bits_uuidv4 hb] at hba

/-- C9 counterexample: the session token drawn by `createSession` comes from
`uuidv4()`, whose outcome space has exactly `2 ^ 122` values — strictly fewer
than the `2 ^ 128` needed for 128 bits of entropy, because the version and
variant bits of a version-4 UUID are fixed. -/
theorem C9_counterexample :
    uuidv4Tokens.card = 2 ^ 122 ∧ 2 ^ 122 < 2 ^ 128 :=
  ⟨uuidv4Tokens_card, by norm_num⟩

/-- C9 (amended): every token produced by `uuidv4()` lies in a space of
exactly `2 ^ 122` values (122 bits of entropy, not ≥ 128): each generated
value is a 128-bit quantity whose version nibble is fixed to `4` and whose
variant bits are fixed to `10`, and the generator is injective on its 122
random input bits. -/
theorem C9_session_token_entropy (r : Nat) :
    uuidv4 r ∈ uuidv4Tokens ∧
    uuidv4 r < 2 ^ 128 ∧
    uuidv4 r / 2 ^ 76 % 2 ^ 4 = 4 ∧
    uuidv4 r / 2 ^ 62 % 2 ^ 2 = 2 ∧
    uuidv4Tokens.card = 2 ^ 122 := by
  have hdrop : uuidv4 r = uuidv4 (r % 2 ^ 122) := by
    unfold uuidv4
    have : r % 2 ^ 122 % 2 ^ 122 = r % 2 ^ 122 := by omega
    rw [this]
  have hshape : uuidv4 r < 2 ^ 128 ∧ uuidv4 r / 2 ^ 76 % 2 ^ 4 = 4 ∧
      uuidv4 r / 2 ^ 62 % 2 ^ 2 = 2 := by
    unfold uuidv4
    obtain ⟨a, ha, ha2⟩ : ∃ a, r % 2 ^ 122 % 2 ^ 62 = a ∧ a < 2 ^ 62 :=
      ⟨_, rfl, Nat.mod_lt _ (by norm_num)⟩
    obtain ⟨b, hb, hb2⟩ : ∃ b, r % 2 ^ 122 / 2 ^ 62 % 2 ^ 12 = b ∧ b < 2 ^ 12 :=
      ⟨_, rfl, Nat.mod_lt _ (by norm_num)⟩
    obtain ⟨c, hc, hc2⟩ : ∃ c, r % 2 ^ 122 / 2 ^ 74 = c ∧ c < 2 ^ 48 :=
      ⟨_, rfl, by omega⟩
    rw [ha, hb, hc]
    refine ⟨by omega, ?_, ?_⟩
    · have : (a + 2 * 2 ^ 62 + b * 2 ^ 64 + 4 * 2 ^ 76 + c * 2 ^ 80) / 2 ^ 76 =
          4 + c * 2 ^ 4 := by omega
      rw [this]
      omega
    · have : (a + 2 * 2 ^ 62 + b * 2 ^ 64 + 4 * 2 ^ 76 + c * 2 ^ 80) / 2 ^ 62 =
          2 + b * 2 ^ 2 + 4 * 2 ^ 14 + c * 2 ^ 18 := by omega
      rw [this]
      omega
  refine ⟨?_, hshape.1, hshape.2.1, hshape.2.2, uuidv4Tokens_card⟩
  rw [uuidv4Tokens, Finset.mem_image]
  exact ⟨r % 2 ^ 122, Finset.mem_range.mpr (by omega), hdrop.symm⟩

end NotesAuth
